import Mathlib

/-!
Shallow embedding of the time-speaker widget (KawserAhmedRoni/time-speaker).

The repository has two source variants of the same React component,
`src/src/App.tsx` and `src/unnamed/part_000`.  The logical core in both is:

* a clock value (`time`), a speaking flag (`isSpeaking`, initially `false`),
  and a voice-availability flag (`hasBnVoice`, initially `true`);
* `checkVoices`: scans the platform voice inventory for a Bengali voice
  (case-insensitive substring test of the locale tag against "bn" and
  "bengali") and stores the result in `hasBnVoice`;
* `speakTime`: guarded by `isSpeaking`, builds the Bengali spoken phrase for
  the current time, binds a Bengali voice when one exists, and issues
  `cancel` followed by `speak` to the speech engine; the `onstart`, `onend`
  and `onerror` callbacks drive the speaking flag.

The first variant is embedded at top level, the second in namespace `V2`.
Platform primitives (`String.prototype.includes`,
`Number.prototype.toLocaleString('bn-BD')`, the speech engine) are modelled
by explicit pure functions and an explicit engine-call trace.
-/

/-- A platform voice descriptor: a locale tag plus an opaque handle
(`SpeechSynthesisVoice`); the handle is modelled as a string name. -/
structure Voice where
  lang : String
  handle : String
  deriving DecidableEq

/-- The part of a `Date` value the announcer reads: `getHours()` (0..23) and
`getMinutes()` (0..59). -/
structure Time where
  hours : Nat
  minutes : Nat
  deriving DecidableEq

/-- The component's reactive state: the clock value and the two boolean
flags (`isSpeaking`, `hasBnVoice`). -/
structure AppState where
  time : Time
  isSpeaking : Bool
  hasBnVoice : Bool
  deriving DecidableEq

/-- A `SpeechSynthesisUtterance` as configured by `speakTime`: text, an
optional bound voice, a locale tag, rate and pitch. -/
structure Utterance where
  text : String
  voice : Option Voice
  lang : String
  rate : ℚ
  pitch : ℚ
  deriving DecidableEq

/-- A call issued to the shared speech engine (`window.speechSynthesis`). -/
inductive EngineCall where
  | cancel
  | speak (u : Utterance)
  deriving DecidableEq

/-- `String.prototype.includes`: `pat` occurs contiguously inside `s`. -/
def strContains (s pat : String) : Bool := decide (pat.data <:+: s.data)

/-- `String.prototype.toLowerCase`: character-wise lower-casing (BCP-47
locale tags are plain Latin, where this agrees with the JavaScript call). -/
def strToLower (s : String) : String := String.mk (s.data.map Char.toLower)

/-- The matching test both variants use on a voice descriptor:
`v.lang.toLowerCase().includes('bn') || v.lang.toLowerCase().includes('bengali')`. -/
def voiceMatches (v : Voice) : Bool :=
  strContains (strToLower v.lang) "bn" || strContains (strToLower v.lang) "bengali"

/-- The local `found` of `checkVoices`:
`voices.some(v => v.lang.toLowerCase().includes('bn') || v.lang.toLowerCase().includes('bengali'))`. -/
def foundBnVoice (voices : List Voice) : Bool := voices.any voiceMatches

/-- `checkVoices` (App.tsx lines 25-32): recompute the voice-availability
flag from the current inventory (`setHasBnVoice(found)`). -/
def checkVoices (voices : List Voice) (s : AppState) : AppState :=
  { s with hasBnVoice := foundBnVoice voices }

/-- JavaScript `||` on natural numbers: the left operand unless it is the
falsy value `0`, in which case the right operand. -/
def jsOrNat (a b : Nat) : Nat := if a = 0 then b else a

/-- `const hour12 = hours % 12 || 12` (App.tsx line 63). -/
def hour12 (hours : Nat) : Nat := jsOrNat (hours % 12) 12

/-- Map an ASCII decimal digit to the Bengali-Bangladesh digit glyph. -/
def bengaliDigitOf (c : Char) : Char :=
  if c = '0' then '০' else if c = '1' then '১' else if c = '2' then '২'
  else if c = '3' then '৩' else if c = '4' then '৪' else if c = '5' then '৫'
  else if c = '6' then '৬' else if c = '7' then '৭' else if c = '8' then '৮'
  else if c = '9' then '৯' else c

/-- `const toBengaliDigits = (num) => num.toLocaleString('bn-BD')`
(App.tsx line 66): for the numbers the app passes (hours 1..12, minutes
1..59, all below the first grouping threshold) this renders the decimal
digits with Bengali glyphs. -/
def toBengaliDigits (num : Nat) : String :=
  String.mk ((Nat.repr num).data.map bengaliDigitOf)

/-- The spoken phrase (App.tsx line 68): the template
`এখন সময় ${hour} টা ${minutes > 0 ? minutes + ' মিনিট' : ''}` with both
numbers rendered in Bengali digits. -/
def timeText (hours minutes : Nat) : String :=
  "এখন সময় " ++ toBengaliDigits (hour12 hours) ++ " টা " ++
    (if minutes > 0 then toBengaliDigits minutes ++ " মিনিট" else "")

/-- The utterance `speakTime` configures (App.tsx lines 70-85): text from
`timeText`; the first matching Bengali voice with its exact tag when one
exists, otherwise no voice and the fallback tag `"bn-BD"`; rate 0.85 and
pitch 1. -/
def buildUtterance (t : Time) (voices : List Voice) : Utterance :=
  match voices.find? voiceMatches with
  | some v =>
      { text := timeText t.hours t.minutes, voice := some v, lang := v.lang,
        rate := 0.85, pitch := 1 }
  | none =>
      { text := timeText t.hours t.minutes, voice := none, lang := "bn-BD",
        rate := 0.85, pitch := 1 }

/-- `speakTime` (App.tsx lines 56-98) as a state-and-trace function: if the
flag is `Speaking` it returns unchanged with no engine calls; otherwise it
leaves the state unchanged (the flag only moves in the `onstart` callback)
and issues `cancel` then `speak` with the configured utterance. -/
def speakTime (s : AppState) (voices : List Voice) : AppState × List EngineCall :=
  if s.isSpeaking then (s, [])
  else (s, [EngineCall.cancel, EngineCall.speak (buildUtterance s.time voices)])

/-- `utterance.onstart = () => setIsSpeaking(true)` (App.tsx line 88). -/
def onStart (s : AppState) : AppState := { s with isSpeaking := true }

/-- `utterance.onend = () => setIsSpeaking(false)` (App.tsx line 89). -/
def onEnd (s : AppState) : AppState := { s with isSpeaking := false }

/-- `utterance.onerror` (App.tsx lines 90-93): log the event payload and
reset the speaking flag; the log is returned explicitly. -/
def onError (payload : String) (s : AppState) : AppState × List String :=
  ({ s with isSpeaking := false }, [payload])

/-- The initial component state (App.tsx lines 11-13): `useState(new Date())`,
`useState(false)` for the speaking flag, `useState(true)` for `hasBnVoice`. -/
def initState (t : Time) : AppState :=
  { time := t, isSpeaking := false, hasBnVoice := true }

/-- The render guard `{!hasBnVoice && (...)}`: the advisory
"no Bengali voice" notice is shown exactly when the flag is `false`. -/
def showsNoVoiceNotice (s : AppState) : Bool := !s.hasBnVoice

namespace V2

/-! The second variant, `src/unnamed/part_000`.  Its `checkVoices` and
`speakTime` logic (lines 24-104) is embedded independently below; the
platform primitives (`strContains`, `strToLower`, `bengaliDigitOf`,
`jsOrNat`) and the
state/utterance/engine types are the shared interface model. -/

/-- part_000 lines 27-31: the matching test on a voice descriptor. -/
def voiceMatches (v : Voice) : Bool :=
  strContains (strToLower v.lang) "bn" || strContains (strToLower v.lang) "bengali"

/-- part_000 lines 26-31: the local `found` of `checkVoices`. -/
def foundBnVoice (voices : List Voice) : Bool := voices.any voiceMatches

/-- `checkVoices` (part_000 lines 25-33). -/
def checkVoices (voices : List Voice) (s : AppState) : AppState :=
  { s with hasBnVoice := foundBnVoice voices }

/-- `const hour12 = hours % 12 || 12` (part_000 line 66). -/
def hour12 (hours : Nat) : Nat := jsOrNat (hours % 12) 12

/-- `const toBengaliDigits = (num) => num.toLocaleString("bn-BD")`
(part_000 line 69). -/
def toBengaliDigits (num : Nat) : String :=
  String.mk ((Nat.repr num).data.map bengaliDigitOf)

/-- The spoken phrase (part_000 line 71). -/
def timeText (hours minutes : Nat) : String :=
  "এখন সময় " ++ toBengaliDigits (hour12 hours) ++ " টা " ++
    (if minutes > 0 then toBengaliDigits minutes ++ " মিনিট" else "")

/-- The utterance `speakTime` configures (part_000 lines 73-92). -/
def buildUtterance (t : Time) (voices : List Voice) : Utterance :=
  match voices.find? voiceMatches with
  | some v =>
      { text := timeText t.hours t.minutes, voice := some v, lang := v.lang,
        rate := 0.85, pitch := 1 }
  | none =>
      { text := timeText t.hours t.minutes, voice := none, lang := "bn-BD",
        rate := 0.85, pitch := 1 }

/-- `speakTime` (part_000 lines 58-104) as a state-and-trace function. -/
def speakTime (s : AppState) (voices : List Voice) : AppState × List EngineCall :=
  if s.isSpeaking then (s, [])
  else (s, [EngineCall.cancel, EngineCall.speak (buildUtterance s.time voices)])

/-- `utterance.onstart` (part_000 line 94). -/
def onStart (s : AppState) : AppState := { s with isSpeaking := true }

/-- `utterance.onend` (part_000 line 95). -/
def onEnd (s : AppState) : AppState := { s with isSpeaking := false }

/-- `utterance.onerror` (part_000 lines 96-100). -/
def onError (payload : String) (s : AppState) : AppState × List String :=
  ({ s with isSpeaking := false }, [payload])

/-- Initial state (part_000 lines 11-13). -/
def initState (t : Time) : AppState :=
  { time := t, isSpeaking := false, hasBnVoice := true }

end V2

/-! Claim theorems. -/

/-- C1: for every hour h in [0,23], the 12-hour hour value computed by
`speakTime` (via `hour12`, the embedding of `hours % 12 || 12`) equals
`h % 12`, except when `h % 12` is 0, in which case it equals 12; in
particular h=0 gives 12, h=13 gives 1, h=23 gives 11. -/
theorem hour12_display_value (h : Nat) (hh : h < 24) :
    hour12 h = (if h % 12 = 0 then 12 else h % 12) ∧
    hour12 0 = 12 ∧ hour12 13 = 1 ∧ hour12 23 = 11 :=
  ⟨rfl, by decide, by decide, by decide⟩

/-- Witness for C1 at h = 13. -/
theorem hour12_display_value_witness :
    13 < 24 ∧ hour12 13 = (if 13 % 12 = 0 then 12 else 13 % 12) :=
  ⟨by decide, (hour12_display_value 13 (by decide)).1⟩

/-- Helper for C2: when the minute is 0 the rendered phrase contains
neither the minutes word nor a zero-minute clause. -/
theorem minuteClause_not_in_zero (h : Nat) (hh : h < 24) :
    strContains (timeText h 0) "মিনিট" = false ∧
    strContains (timeText h 0) (toBengaliDigits 0 ++ " মিনিট") = false := by
  interval_cases h <;> exact ⟨by decide, by decide⟩

/-- C2: for every time value, the phrase built by `speakTime` contains the
minute clause (the minute in Bengali numerals followed by the minutes word
"মিনিট") iff the minute-of-hour is positive; at minute 0 the clause is
omitted entirely and no "zero minutes" text (indeed no minutes word at
all) appears. -/
theorem timeText_minute_clause (h m : Nat) (hh : h < 24) (hm : m < 60) :
    (strContains (timeText h m) (toBengaliDigits m ++ " মিনিট") = true ↔ 0 < m) ∧
    (m = 0 → strContains (timeText h m) "মিনিট" = false) := by
  constructor
  · constructor
    · intro hc
      rcases Nat.eq_zero_or_pos m with hm0 | hmpos
      · subst hm0
        have hf := (minuteClause_not_in_zero h hh).2
        rw [hc] at hf
        simp at hf
      · exact hmpos
    · intro hmpos
      unfold strContains timeText
      rw [if_pos hmpos, decide_eq_true_eq]
      refine ⟨("এখন সময় " ++ toBengaliDigits (hour12 h) ++ " টা ").data, [], ?_⟩
      simp
  · intro hm0; subst hm0; exact (minuteClause_not_in_zero h hh).1

/-- Witness for C2 at h = 13, m = 0. -/
theorem timeText_minute_clause_witness :
    13 < 24 ∧ 0 < 60 ∧ strContains (timeText 13 0) "মিনিট" = false :=
  ⟨by decide, by decide, (timeText_minute_clause 13 0 (by decide) (by decide)).2 rfl⟩

/-- C3: when the speaking flag is `Speaking`, invoking `speakTime` is a
no-op: the state is returned unchanged and no engine call (neither cancel
nor speak, hence no utterance) is issued. -/
theorem speakTime_reentrancy_guard (s : AppState) (voices : List Voice)
    (h : s.isSpeaking = true) : speakTime s voices = (s, []) := by
  simp [speakTime, h]

/-- Witness for C3 at a concrete speaking state. -/
theorem speakTime_reentrancy_guard_witness :
    (AppState.mk ⟨10, 30⟩ true true).isSpeaking = true ∧
    speakTime (AppState.mk ⟨10, 30⟩ true true) [Voice.mk "bn-BD" "a"] =
      (AppState.mk ⟨10, 30⟩ true true, []) :=
  ⟨rfl, speakTime_reentrancy_guard _ _ rfl⟩

/-- C4: the utterance issued by `speakTime` binds the found matching voice
descriptor and its exact locale tag when the inventory search succeeds,
and otherwise binds no voice and the fallback tag "bn-BD"; the search
fails exactly when no descriptor's tag matches the case-insensitive
"bn" or "bengali" test (`voiceMatches`). -/
theorem utterance_voice_binding (t : Time) (voices : List Voice) :
    (∀ v, voices.find? voiceMatches = some v →
      (buildUtterance t voices).voice = some v ∧
        (buildUtterance t voices).lang = v.lang) ∧
    (voices.find? voiceMatches = none →
      (buildUtterance t voices).voice = none ∧
        (buildUtterance t voices).lang = "bn-BD") ∧
    (voices.find? voiceMatches = none ↔ ∀ v ∈ voices, voiceMatches v = false) := by
  refine ⟨?_, ?_, ?_⟩
  · intro v hv
    unfold buildUtterance
    rw [hv]
    exact ⟨rfl, rfl⟩
  · intro hv
    unfold buildUtterance
    rw [hv]
    exact ⟨rfl, rfl⟩
  · simp [List.find?_eq_none]

/-- Witness for C4 on an inventory whose matching entry has the
upper-case tag "BN-IN": that exact tag, not the fallback, is bound. -/
theorem utterance_voice_binding_witness :
    List.find? voiceMatches [Voice.mk "en-US" "e", Voice.mk "BN-IN" "b"] =
        some (Voice.mk "BN-IN" "b") ∧
    (buildUtterance ⟨7, 0⟩ [Voice.mk "en-US" "e", Voice.mk "BN-IN" "b"]).voice =
        some (Voice.mk "BN-IN" "b") ∧
    (buildUtterance ⟨7, 0⟩ [Voice.mk "en-US" "e", Voice.mk "BN-IN" "b"]).lang = "BN-IN" := by
  have h := (utterance_voice_binding ⟨7, 0⟩ [Voice.mk "en-US" "e", Voice.mk "BN-IN" "b"]).1
      (Voice.mk "BN-IN" "b") (by decide)
  exact ⟨by decide, h.1, h.2⟩

/-- C5: the voice-availability flag computed by `checkVoices` is true iff
at least one inventory entry matches the case-insensitive "bn"/"bengali"
test; an inventory with "bn-BD" and "en-US" yields true, one with only
"en-US" yields false. -/
theorem checkVoices_flag_iff (voices : List Voice) (s : AppState) :
    ((checkVoices voices s).hasBnVoice = true ↔ ∃ v ∈ voices, voiceMatches v = true) ∧
    (checkVoices [Voice.mk "bn-BD" "a", Voice.mk "en-US" "b"]
        (initState ⟨0, 0⟩)).hasBnVoice = true ∧
    (checkVoices [Voice.mk "en-US" "b"] (initState ⟨0, 0⟩)).hasBnVoice = false := by
  refine ⟨?_, by decide, by decide⟩
  show foundBnVoice voices = true ↔ _
  simp [foundBnVoice, List.any_eq_true]

/-- Witness for C5 on the inventory ["bn-BD", "en-US"]. -/
theorem checkVoices_flag_iff_witness :
    (checkVoices [Voice.mk "bn-BD" "a", Voice.mk "en-US" "b"]
        (initState ⟨0, 0⟩)).hasBnVoice = true :=
  (checkVoices_flag_iff [Voice.mk "bn-BD" "a", Voice.mk "en-US" "b"]
    (initState ⟨0, 0⟩)).2.1

/-- C6: for every prior state, the end and error notifications reset the
speaking flag to `Idle`, change no other state field, and the error
handler additionally logs the payload. -/
theorem end_error_reset_flag (s : AppState) (payload : String) :
    (onEnd s).isSpeaking = false ∧ (onEnd s).time = s.time ∧
    (onEnd s).hasBnVoice = s.hasBnVoice ∧
    ((onError payload s).1).isSpeaking = false ∧
    ((onError payload s).1).time = s.time ∧
    ((onError payload s).1).hasBnVoice = s.hasBnVoice ∧
    (onError payload s).2 = [payload] :=
  ⟨rfl, rfl, rfl, rfl, rfl, rfl, rfl⟩

/-- C7: every `speakTime` invocation that passes the reentrancy guard
issues exactly the engine calls cancel-then-speak, in that order, for any
inventory (including an empty one, i.e. with no prior utterance pending). -/
theorem cancel_before_speak (s : AppState) (voices : List Voice)
    (h : s.isSpeaking = false) :
    (speakTime s voices).2 =
      [EngineCall.cancel, EngineCall.speak (buildUtterance s.time voices)] := by
  simp [speakTime, h]

/-- Witness for C7 at a concrete idle state with an empty inventory. -/
theorem cancel_before_speak_witness :
    (initState ⟨10, 30⟩).isSpeaking = false ∧
    (speakTime (initState ⟨10, 30⟩) []).2 =
      [EngineCall.cancel, EngineCall.speak (buildUtterance ⟨10, 30⟩ [])] :=
  ⟨rfl, cancel_before_speak (initState ⟨10, 30⟩) [] rfl⟩

/-- C8: the two source variants are observably equivalent: for the same
state, inventory and error payload they produce the same `speakTime`
result (same utterance, voice binding, lang, rate, pitch, and engine
calls in the same order), the same utterance construction, the same
`checkVoices` flag, the same flag transitions, and the same initial
state. -/
theorem variants_equivalent (s : AppState) (voices : List Voice) (payload : String) :
    V2.speakTime s voices = speakTime s voices ∧
    V2.buildUtterance s.time voices = buildUtterance s.time voices ∧
    V2.checkVoices voices s = checkVoices voices s ∧
    V2.onStart s = onStart s ∧ V2.onEnd s = onEnd s ∧
    V2.onError payload s = onError payload s ∧
    V2.initState s.time = initState s.time :=
  ⟨rfl, rfl, rfl, rfl, rfl, rfl, rfl⟩

/-- C9: when the inventory has several matching descriptors, `speakTime`
binds the first matching one in inventory order: for any split
pre ++ v :: post with nothing in pre matching and v matching, the
utterance's voice is v, whatever post holds. -/
theorem first_matching_voice_bound (t : Time) (pre post : List Voice) (v : Voice)
    (hpre : ∀ u ∈ pre, voiceMatches u = false) (hv : voiceMatches v = true) :
    (buildUtterance t (pre ++ v :: post)).voice = some v := by
  have hfind : ∀ l : List Voice, (∀ u ∈ l, voiceMatches u = false) →
      (l ++ v :: post).find? voiceMatches = some v := by
    intro l
    induction l with
    | nil => intro _; simp [hv]
    | cons a l2 ih =>
        intro hp
        have ha : voiceMatches a = false := hp a (List.mem_cons_self a l2)
        rw [List.cons_append, List.find?_cons_of_neg _ (by simp [ha])]
        exact ih fun u hu => hp u (List.mem_cons_of_mem a hu)
  unfold buildUtterance
  rw [hfind pre hpre]

/-- Witness for C9 on an inventory with two matching descriptors: the
first one ("bn-BD") is bound, not the later one ("bn-IN"). -/
theorem first_matching_voice_bound_witness :
    voiceMatches (Voice.mk "en-US" "e") = false ∧
    voiceMatches (Voice.mk "bn-BD" "b1") = true ∧
    voiceMatches (Voice.mk "bn-IN" "b2") = true ∧
    (buildUtterance ⟨7, 0⟩
        [Voice.mk "en-US" "e", Voice.mk "bn-BD" "b1", Voice.mk "bn-IN" "b2"]).voice =
      some (Voice.mk "bn-BD" "b1") := by
  refine ⟨by decide, by decide, by decide, ?_⟩
  exact first_matching_voice_bound ⟨7, 0⟩ [Voice.mk "en-US" "e"] [Voice.mk "bn-IN" "b2"]
    (Voice.mk "bn-BD" "b1") (by decide) (by decide)

/-- C10: the voice-availability flag starts out true, so the initial state
never shows the advisory "no Bengali voice" notice, whatever the clock
value (and before any inventory scan has stored a result). -/
theorem initial_voice_flag_true (t : Time) :
    (initState t).hasBnVoice = true ∧ showsNoVoiceNotice (initState t) = false :=
  ⟨rfl, rfl⟩
